import Mathlib

/-!
Verification of the report-construction engine of `src/main.py`
(CPTs_expedicao): shift classification (`identificar_turno`), dock
normalization (`formatar_doca`), the 2-hour window filter, hour grouping and
fixed-width row rendering of `montar_mensagem`, the per-shift summary, and
the chunk splitter `enviar_em_blocos`.

Modelling conventions:
* Timestamps (`CPT`, "now") are naive local instants counted in whole
  seconds (`Nat`), matching the single-timezone naive-datetime comparisons
  of the script.  `dt.hour` is `t / 3600 % 24`, `dt.minute` is
  `t / 60 % 60`, and `int((cpt - agora).total_seconds() // 60)` is
  `((cpt : Int) - agora).fdiv 60` (Python `//` is floor division).
* Python strings are Lean `String`s; `len` is `String.length` (both count
  Unicode code points), `s[:n]` is `pyTake`, `s.strip()` is `pyStrip`
  (whitespace per `Char.isWhitespace`), `str.isdigit` is `Char.isDigit`
  (the feed's dock labels are Basic Latin), `"sep".join` is
  `String.intercalate`, `s.split('\n')` is `String.splitOn "\n"`, and
  string comparison is code-point lexicographic (`lexLe`).
* `pd.DataFrame` rows are a `List Registro`; boolean-mask filtering is
  `List.filter`, `sort_values` is a sort by the given key, and
  `groupby('Hora')` (pandas default `sort=True`) visits the distinct keys
  in ascending order, each group keeping the frame's row order.
* `enviar_em_blocos` is modelled as the pure sequence of blocks (lists of
  lines) it posts; the string actually posted for a block `b` is
  `chunkStr b` (the block wrapped in the backtick fence pair).
-/

/-- One row of the cleaned expedition dataframe: columns `Doca`,
`LH Trip Number`, `Station Name` and the parsed `CPT` timestamp
(naive local, whole seconds). -/
structure Registro where
  doca : String
  lhTripNumber : String
  stationName : String
  cpt : Nat
deriving DecidableEq

/-- Python `s.strip()`: drop leading and trailing whitespace. -/
def pyStrip (s : String) : String :=
  String.mk (((s.data.dropWhile Char.isWhitespace).reverse.dropWhile
    Char.isWhitespace).reverse)

/-- Python `s[:n]`: the first `n` characters (all of `s` when it is shorter). -/
def pyTake (s : String) (n : Nat) : String :=
  String.mk (s.data.take n)

/-- `identificar_turno` (src/main.py:52-58): hour-of-day to shift name.
The argument is an arbitrary integer, as in Python; there is no bounds
check and the final `else` catches everything outside the first two
ranges. -/
def identificar_turno (hora : Int) : String :=
  if 6 ≤ hora ∧ hora < 14 then "Turno 1"
  else if 14 ≤ hora ∧ hora < 22 then "Turno 2"
  else "Turno 3"

/-- `formatar_doca` (src/main.py:91-101): strip; empty or `"-"` gives the
sentinel `"--"`; otherwise keep only the digit characters, falling back to
`"--"` when none remain. -/
def formatar_doca (doca : String) : String :=
  if pyStrip doca = "" ∨ pyStrip doca = "-" then "--"
  else if String.mk ((pyStrip doca).data.filter Char.isDigit) = "" then "--"
  else String.mk ((pyStrip doca).data.filter Char.isDigit)

/-- `dt.hour` of a naive timestamp in seconds. -/
def horaDe (t : Nat) : Nat := t / 3600 % 24

/-- `dt.minute` of a naive timestamp in seconds. -/
def minutoDe (t : Nat) : Nat := t / 60 % 60

/-- `int((cpt - agora).total_seconds() // 60)` (src/main.py:152). -/
def minutosAte (agora cpt : Nat) : Int :=
  ((cpt : Int) - (agora : Int)).fdiv 60

/-- A run of `n` spaces (Python format padding). -/
def spaces (n : Nat) : String := String.mk (List.replicate n ' ')

/-- Python format `"{:<w}"`: left-align, pad with spaces to width `w`
(a longer value is left unchanged). -/
def padEsq (s : String) (w : Nat) : String :=
  s ++ spaces (w - s.length)

/-- Python format `"{:^w}"`: center, extra space going to the right
(a longer value is left unchanged). -/
def padCentro (s : String) (w : Nat) : String :=
  spaces ((w - s.length) / 2) ++ s ++ spaces (w - s.length - (w - s.length) / 2)

/-- Python `"{:02d}"`. -/
def doisDigitos (n : Nat) : String :=
  if n < 10 then "0" ++ toString n else toString n

/-- `cpt.strftime('%H:%M')` (src/main.py:164). -/
def cptStr (t : Nat) : String :=
  doisDigitos (horaDe t) ++ ":" ++ doisDigitos (minutoDe t)

/-- The data part of one table row (src/main.py:161-168): the four fields,
each pre-truncated by slicing (`[:14]`, `[:6]`, `[:25]`) and laid out with
`row_fmt = "{:<14} | {:^6} | {:^7} | {:<25}"`. -/
def dadosFormatados (r : Registro) : String :=
  padEsq (pyTake (pyStrip r.lhTripNumber) 14) 14 ++ " | " ++
  padCentro (pyTake (formatar_doca r.doca) 6) 6 ++ " | " ++
  padCentro (cptStr r.cpt) 7 ++ " | " ++
  padEsq (pyTake (pyStrip r.stationName) 25) 25

/-- The urgency prefix (src/main.py:155-159): overdue, imminent within 10
minutes, or two plain spaces. -/
def prefixoEmoji (minutos : Int) : String :=
  if minutos < 0 then "❗️"
  else if minutos ≤ 10 then "⚠️"
  else "  "

/-- One rendered table row (src/main.py:169): emoji prefix, a space, data. -/
def linhaRegistro (agora : Nat) (r : Registro) : String :=
  prefixoEmoji (minutosAte agora r.cpt) ++ " " ++ dadosFormatados r

/-- The window mask `(df['CPT'] >= agora) & (df['CPT'] < limite_2h)`
(src/main.py:120) with `limite_2h = agora + 2h`. -/
def selecionarJanela (df : List Registro) (agora : Nat) : List Registro :=
  df.filter (fun r => decide (agora ≤ r.cpt ∧ r.cpt < agora + 7200))

/-- Code-point lexicographic `≤` on character lists: Python string
comparison, used by `sort_values` for the `Station Name` tie-break. -/
def lexLe : List Char → List Char → Bool
  | [], _ => true
  | _ :: _, [] => false
  | a :: as, b :: bs => if a < b then true else if b < a then false else lexLe as bs

/-- The `sort_values(by=['CPT', 'Station Name'])` key order (src/main.py:140). -/
def ordemLinha (a b : Registro) : Prop :=
  a.cpt < b.cpt ∨ (a.cpt = b.cpt ∧ lexLe a.stationName.data b.stationName.data = true)

instance : DecidableRel ordemLinha := fun a b =>
  inferInstanceAs (Decidable (a.cpt < b.cpt ∨
    (a.cpt = b.cpt ∧ lexLe a.stationName.data b.stationName.data = true)))

/-- `df_2h.sort_values(by=['CPT', 'Station Name'])`. -/
def ordenar (rows : List Registro) : List Registro :=
  List.insertionSort ordemLinha rows

/-- The windowed frame as the row loop sees it: filtered, then sorted. -/
def registrosOrdenados (df : List Registro) (agora : Nat) : List Registro :=
  ordenar (selecionarJanela df agora)

/-- The group keys of `df_2h.groupby('Hora')` (src/main.py:142): pandas
`groupby` with its default `sort=True` visits the distinct hour values in
ascending numeric order. -/
def horasAgrupadas (rows : List Registro) : List Nat :=
  List.insertionSort (· ≤ ·) ((rows.map (fun r => horaDe r.cpt)).dedup)

/-- The members of one hour group, in frame row order. -/
def grupoDaHora (rows : List Registro) (h : Nat) : List Registro :=
  rows.filter (fun r => decide (horaDe r.cpt = h))

/-- The header line (src/main.py:129-130). -/
def cabecalho : String :=
  "   " ++ padCentro "LT" 14 ++ " | " ++ padCentro "Doca" 6 ++ " | " ++
  padCentro "CPT" 7 ++ " | " ++ padCentro "Destino" 25

/-- The separator rule under the header (src/main.py:131). -/
def separador : String :=
  "   " ++ String.mk (List.replicate (cabecalho.length - 3) '─')

/-- The lines of one hour group (src/main.py:142-170): a blank line, the
`"{qtd} LH{s} pendente{s} às {hora:02d}h"` headline, then the rows. -/
def linhasGrupo (agora : Nat) (rows : List Registro) (h : Nat) : List String :=
  let grupo := grupoDaHora rows h
  let qtd := grupo.length
  let sufixoPlural := if qtd > 1 then "s" else ""
  ["", toString qtd ++ " LH" ++ sufixoPlural ++ " pendente" ++ sufixoPlural ++
      " às " ++ doisDigitos h ++ "h"] ++
  grupo.map (linhaRegistro agora)

/-- The whole table body: every hour group in `groupby` key order. -/
def linhasTabela (df : List Registro) (agora : Nat) : List String :=
  (horasAgrupadas (registrosOrdenados df agora)).flatMap
    (linhasGrupo agora (registrosOrdenados df agora))

/-- The records of the table in rendered order (row loop of
src/main.py:142-170): group by group, row by row. -/
def registrosRenderizados (df : List Registro) (agora : Nat) : List Registro :=
  (horasAgrupadas (registrosOrdenados df agora)).flatMap
    (grupoDaHora (registrosOrdenados df agora))

/-- `prioridades_turno` (src/main.py:180-184): the two other shifts in
cyclic order after the current one. -/
def prioridades_turno (turno : String) : List String :=
  if turno = "Turno 1" then ["Turno 2", "Turno 3"]
  else if turno = "Turno 2" then ["Turno 3", "Turno 1"]
  else if turno = "Turno 3" then ["Turno 1", "Turno 2"]
  else []

/-- `df['Turno'].value_counts()[turno]` with default 0 (src/main.py:179,187):
how many rows of the whole frame fall in the given shift (the `Turno`
column is `identificar_turno` of the CPT hour, src/main.py:86). -/
def contarTurno (df : List Registro) (turno : String) : Nat :=
  (df.filter (fun r => decide (identificar_turno (horaDe r.cpt : Int) = turno))).length

/-- One summary line (src/main.py:186-192): plural `s` whenever the count
is not 1; zero counts get their own explicit line. -/
def linhaResumo (df : List Registro) (turno : String) : String :=
  if contarTurno df turno > 0 then
    "⚠️ " ++ toString (contarTurno df turno) ++ " LH" ++
      (if contarTurno df turno ≠ 1 then "s" else "") ++ " pendente" ++
      (if contarTurno df turno ≠ 1 then "s" else "") ++ " no " ++ turno
  else "✅ 0 LHs pendentes no " ++ turno

/-- The footer's per-shift lines, in priority order (src/main.py:186-192). -/
def linhasResumo (df : List Registro) (turnoAtual : String) : List String :=
  (prioridades_turno turnoAtual).map (linhaResumo df)

/-- `montar_mensagem` (src/main.py:104-194) as its list of lines. -/
def montarLinhas (df : List Registro) (agora : Nat) : List String :=
  (["🚛 LTs pendentes:", ""] ++
    (if selecionarJanela df agora = [] then
      ["✅ Sem pendências para as próximas 2h."]
     else [cabecalho, separador] ++ linhasTabela df agora)) ++
  [""] ++
  [String.mk (List.replicate 40 '─'), "LH´s pendentes para os próximos turnos:", ""] ++
  linhasResumo df (identificar_turno (horaDe agora : Int))

/-- `montar_mensagem`: the joined report string. -/
def montar_mensagem (df : List Registro) (agora : Nat) : String :=
  String.intercalate "\n" (montarLinhas df agora)

/-- Helper for `linhas`: the accumulator holds the current line reversed. -/
def linhasAux (acc : List Char) : List Char → List String
  | [] => [String.mk acc.reverse]
  | c :: cs =>
    if c = '\n' then String.mk acc.reverse :: linhasAux [] cs
    else linhasAux (c :: acc) cs

/-- Python `mensagem.split('\n')` (src/main.py:221): every maximal
`'\n'`-free segment, so `""` gives `[""]` and a trailing newline gives a
trailing `""`. -/
def linhas (s : String) : List String := linhasAux [] s.data

/-- `prefixo_bloco = "``` \n"` (src/main.py:225). -/
def prefixo_bloco : String := "``` \n"

/-- `sufixo_bloco = "\n```"` (src/main.py:226). -/
def sufixo_bloco : String := "\n```"

/-- The string actually posted for one block of lines (src/main.py:235,240). -/
def chunkStr (bloco : List String) : String :=
  prefixo_bloco ++ String.intercalate "\n" bloco ++ sufixo_bloco

/-- The loop of `enviar_em_blocos` (src/main.py:228-240): append the next
line; when the fenced text would exceed the limit, drop it again, flush the
block built so far and restart from the dropped line.  The trailing
non-empty block is flushed after the loop. -/
def blocosAux (limite : Nat) (bloco : List String) : List String → List (List String)
  | [] => if bloco.isEmpty then [] else [bloco]
  | linha :: rest =>
    if limite < (chunkStr (bloco ++ [linha])).length then
      bloco :: blocosAux limite [linha] rest
    else
      blocosAux limite (bloco ++ [linha]) rest

/-- `enviar_em_blocos(mensagem, _, limite)` (src/main.py:216-240) as the
sequence of blocks it posts, each posted as `chunkStr` of the block. -/
def enviar_em_blocos (mensagem : String) (limite : Nat) : List (List String) :=
  blocosAux limite [] (linhas mensagem)

/-! ## Helper lemmas -/

theorem blocosAux_flatten (limite : Nat) :
    ∀ (rest bloco : List String),
      (blocosAux limite bloco rest).flatten = bloco ++ rest := by
  intro rest
  induction rest with
  | nil =>
    intro bloco
    by_cases h : bloco.isEmpty
    · simp [blocosAux, h, List.isEmpty_iff.mp h]
    · simp [blocosAux, h]
  | cons linha rest ih =>
    intro bloco
    simp only [blocosAux]
    split
    · simp [List.flatten_cons, ih [linha]]
    · simp [ih (bloco ++ [linha])]

theorem blocosAux_tamanho (limite : Nat) :
    ∀ (rest bloco : List String),
      ((chunkStr bloco).length ≤ limite ∨ bloco.length ≤ 1) →
      ∀ b ∈ blocosAux limite bloco rest,
        (chunkStr b).length ≤ limite ∨ b.length ≤ 1 := by
  intro rest
  induction rest with
  | nil =>
    intro bloco hinv b hb
    simp only [blocosAux] at hb
    split at hb
    · simp at hb
    · simp at hb
      exact hb ▸ hinv
  | cons linha rest ih =>
    intro bloco hinv b hb
    simp only [blocosAux] at hb
    split at hb
    · rcases List.mem_cons.mp hb with hb | hb
      · exact hb ▸ hinv
      · exact ih [linha] (Or.inr (by simp)) b hb
    · rename_i hle
      exact ih (bloco ++ [linha]) (Or.inl (by omega)) b hb

/-! ## C2: chunking round-trip -/

/-- C2.  For every message string and every size budget, the blocks emitted
by `enviar_em_blocos`, concatenated in emission order, are exactly the
original line sequence of the message; and each posted chunk string is the
block's lines joined by newlines between the injected opening and closing
fence delimiters (so stripping the delimiters leaves exactly the block's
lines). -/
theorem C2_round_trip_blocos (mensagem : String) (limite : Nat) :
    (enviar_em_blocos mensagem limite).flatten = linhas mensagem ∧
    ∀ b ∈ enviar_em_blocos mensagem limite,
      (chunkStr b).data =
        prefixo_bloco.data ++ (String.intercalate "\n" b).data ++ sufixo_bloco.data := by
  constructor
  · simpa using blocosAux_flatten limite (linhas mensagem) []
  · intro b _
    simp [chunkStr, String.data_append]

/-! ## C3: chunk size bound -/

/-- C3 as stated is false: with budget 5 and the single-line message
`"abcdefghij"`, the first emitted chunk is the delimiter-only block `[]`
(the line overflowed an empty block and is popped back out), whose posted
length 9 exceeds the budget although it does not consist of a single
overlong line. -/
theorem C3_contraexemplo :
    enviar_em_blocos "abcdefghij" 5 = [[], ["abcdefghij"]] ∧
    [] ∈ enviar_em_blocos "abcdefghij" 5 ∧
    5 < (chunkStr ([] : List String)).length ∧
    ([] : List String).length ≠ 1 := by decide

/-- C3 (amended).  Every chunk emitted by the splitter either fits the
budget (total posted length, delimiters included) or carries at most one
line — the single-overlong-line chunk, or the delimiter-only chunk emitted
when a line overflows an empty block; and no line is ever split or altered:
every line of every chunk is a line of the original message. -/
theorem C3_limite_blocos (mensagem : String) (limite : Nat)
    (b : List String) (hb : b ∈ enviar_em_blocos mensagem limite) :
    ((chunkStr b).length ≤ limite ∨ b.length ≤ 1) ∧
    ∀ l ∈ b, l ∈ linhas mensagem := by
  refine ⟨blocosAux_tamanho limite (linhas mensagem) [] (Or.inr (by simp)) b hb, ?_⟩
  intro l hl
  have hflat : l ∈ (enviar_em_blocos mensagem limite).flatten :=
    List.mem_flatten.mpr ⟨b, hb, hl⟩
  have h := blocosAux_flatten limite (linhas mensagem) []
  simpa [enviar_em_blocos, h] using hflat

theorem C3_limite_blocos_witness :
    (((chunkStr ["ola"]).length ≤ 3000 ∨ (["ola"] : List String).length ≤ 1) ∧
      ∀ l ∈ (["ola"] : List String), l ∈ linhas "ola") :=
  C3_limite_blocos "ola" 3000 ["ola"] (by decide)

/-! ## C4: out-of-domain hours -/

/-- C4 as stated is false: the classifier does not signal anything for an
hour outside 0–23; the bare `else` returns `"Turno 3"` for 24 and for -1. -/
theorem C4_contraexemplo :
    identificar_turno 24 = "Turno 3" ∧ identificar_turno (-1) = "Turno 3" := by
  decide

/-- C4 (amended).  For every integer hour outside 0–23 the classifier does
not fail: it is total, and the catch-all `else` branch returns `"Turno 3"`. -/
theorem C4_fora_do_dominio (hora : Int) (h : hora < 0 ∨ 23 < hora) :
    identificar_turno hora = "Turno 3" := by
  unfold identificar_turno
  split_ifs with h1 h2
  · exfalso; omega
  · exfalso; omega
  · rfl

theorem C4_fora_do_dominio_witness : identificar_turno 24 = "Turno 3" :=
  C4_fora_do_dominio 24 (Or.inr (by norm_num))

/-! ## C5: the three shifts partition the day -/

/-- C5.  For every hour in 0–23 the classifier returns exactly one of the
three shifts: `"Turno 1"` exactly on [6,14), `"Turno 2"` exactly on
[14,22), and `"Turno 3"` exactly on [22,24) ∪ [0,6). -/
theorem C5_particao_turnos (hora : Int) (h0 : 0 ≤ hora) (h23 : hora ≤ 23) :
    (identificar_turno hora = "Turno 1" ↔ 6 ≤ hora ∧ hora < 14) ∧
    (identificar_turno hora = "Turno 2" ↔ 14 ≤ hora ∧ hora < 22) ∧
    (identificar_turno hora = "Turno 3" ↔ 22 ≤ hora ∨ hora < 6) ∧
    (identificar_turno hora = "Turno 1" ∨ identificar_turno hora = "Turno 2" ∨
      identificar_turno hora = "Turno 3") := by
  interval_cases hora <;> decide

theorem C5_particao_turnos_witness :
    identificar_turno 7 = "Turno 1" ↔ 6 ≤ (7 : Int) ∧ (7 : Int) < 14 :=
  (C5_particao_turnos 7 (by norm_num) (by norm_num)).1

/-! ## C6: dock normalization -/

/-- C6 as stated is false in its "digit-only substring" part: the code
keeps every digit character, not one contiguous run, so for `"1a2"` it
returns `"12"`, which is not a substring of the input. -/
theorem C6_contraexemplo :
    formatar_doca "1a2" = "12" ∧ ¬ ("12".data <:+: "1a2".data) := by decide

/-- C6 (amended).  The normalizer strips the input; a stripped value that
is empty or `"-"` (in particular the empty, `"-"` and whitespace-only
examples) gives the sentinel `"--"`; otherwise it returns the concatenation
of all decimal digit characters of the stripped value in order (a
subsequence, not necessarily contiguous) when there is at least one digit,
and `"--"` otherwise; the cited examples evaluate as the claim says. -/
theorem C6_formatar_doca_normalizacao :
    (∀ s : String, (pyStrip s = "" ∨ pyStrip s = "-") → formatar_doca s = "--") ∧
    (∀ s : String, ¬(pyStrip s = "" ∨ pyStrip s = "-") →
      formatar_doca s =
        (if (pyStrip s).data.filter Char.isDigit = [] then "--"
         else String.mk ((pyStrip s).data.filter Char.isDigit))) ∧
    (∀ s : String, formatar_doca s = "--" ∨
      ((formatar_doca s).data.Sublist (pyStrip s).data ∧
       (formatar_doca s).data ≠ [] ∧
       ∀ c ∈ (formatar_doca s).data, c.isDigit = true)) ∧
    formatar_doca "" = "--" ∧ formatar_doca "-" = "--" ∧ formatar_doca "   " = "--" ∧
    formatar_doca "EXT.OUT 64" = "64" ∧ formatar_doca "Doca 12" = "12" := by
  have hmk : ∀ l : List Char, (String.mk l = "") ↔ l = [] := by
    intro l
    constructor
    · intro h
      exact congrArg String.data h
    · intro h
      rw [h]
  refine ⟨?_, ?_, ?_, by decide, by decide, by decide, by decide, by decide⟩
  · intro s h
    unfold formatar_doca
    rw [if_pos h]
  · intro s h
    unfold formatar_doca
    rw [if_neg h]
    by_cases hl : (pyStrip s).data.filter Char.isDigit = []
    · rw [if_pos ((hmk _).mpr hl), if_pos hl]
    · rw [if_neg fun hc => hl ((hmk _).mp hc), if_neg hl]
  · intro s
    unfold formatar_doca
    split_ifs with h1 h2
    · exact Or.inl rfl
    · exact Or.inl rfl
    · refine Or.inr ⟨List.filter_sublist _, fun hc => h2 ((hmk _).mpr hc), ?_⟩
      intro c hc
      exact (List.mem_filter.mp hc).2

/-! ## Grouping machinery: groupby partitions the frame -/

theorem flatMap_filter_key_perm {α β : Type} [DecidableEq β] (key : α → β) :
    ∀ (ks : List β) (l : List α), ks.Nodup → (∀ x ∈ l, key x ∈ ks) →
      (ks.flatMap fun k => l.filter fun x => decide (key x = k)).Perm l := by
  intro ks
  induction ks with
  | nil =>
    intro l _ hall
    have : l = [] := List.eq_nil_iff_forall_not_mem.mpr fun a ha => by
      simpa using hall a ha
    simp [this]
  | cons k ks ih =>
    intro l hnd hall
    have hk : k ∉ ks := (List.nodup_cons.mp hnd).1
    have hnd' : ks.Nodup := (List.nodup_cons.mp hnd).2
    rw [List.flatMap_cons]
    have hrw : (ks.flatMap fun k' => l.filter fun x => decide (key x = k')) =
        ks.flatMap fun k' =>
          (l.filter fun x => !decide (key x = k)).filter fun x => decide (key x = k') := by
      refine List.flatMap_congr ?_
      intro k' hk'
      rw [List.filter_filter]
      refine List.filter_congr ?_
      intro x _
      by_cases hx : key x = k'
      · have hne : k' ≠ k := fun hc => hk (hc ▸ hk')
        have : ¬ key x = k := fun hc => hne (hx.symm.trans hc)
        simp [hx, this, hne]
      · simp [hx]
    rw [hrw]
    have hperm := ih (l.filter fun x => !decide (key x = k)) hnd' ?side
    case side =>
      intro x hx
      have hmem := List.mem_filter.mp hx
      have := hall x hmem.1
      rcases List.mem_cons.mp this with hc | hc
      · exfalso
        simp [hc] at hmem
      · exact hc
    exact (List.Perm.append_left (l.filter fun x => decide (key x = k)) hperm).trans
      (List.filter_append_perm _ l)

theorem registrosRenderizados_perm (df : List Registro) (agora : Nat) :
    (registrosRenderizados df agora).Perm (selecionarJanela df agora) := by
  have h1 : (registrosRenderizados df agora).Perm (registrosOrdenados df agora) := by
    unfold registrosRenderizados grupoDaHora
    refine flatMap_filter_key_perm (fun r : Registro => horaDe r.cpt) _ _ ?_ ?_
    · unfold horasAgrupadas
      exact (List.perm_insertionSort _ _).nodup_iff.mpr (List.nodup_dedup _)
    · intro x hx
      unfold horasAgrupadas
      rw [(List.perm_insertionSort _ _).mem_iff, List.mem_dedup]
      exact List.mem_map.mpr ⟨x, hx, rfl⟩
  exact h1.trans (List.perm_insertionSort _ _)

theorem mem_registrosRenderizados (df : List Registro) (agora : Nat) (r : Registro) :
    r ∈ registrosRenderizados df agora ↔
      r ∈ df ∧ agora ≤ r.cpt ∧ r.cpt < agora + 7200 := by
  rw [(registrosRenderizados_perm df agora).mem_iff]
  unfold selecionarJanela
  rw [List.mem_filter]
  simp

/-! ## C1: hour-group order -/

/-- A record scheduled 23:30 of day zero. -/
def registro23h : Registro := ⟨"1", "LT23", "AAA", 84600⟩

/-- A record scheduled 00:30 of day one. -/
def registro00h : Registro := ⟨"2", "LT00", "BBB", 88200⟩

/-- C1 as stated is false: with `now` 23:00 both records fall in the
2-hour window, the time-sorted sequence meets hour 23 first, yet `groupby`
(default `sort=True`) emits the hour keys in ascending numeric order —
the 00h group comes before the 23h group. -/
theorem C1_contraexemplo :
    selecionarJanela [registro23h, registro00h] 82800 = [registro23h, registro00h] ∧
    registrosOrdenados [registro23h, registro00h] 82800 = [registro23h, registro00h] ∧
    horaDe registro23h.cpt = 23 ∧ horaDe registro00h.cpt = 0 ∧
    horasAgrupadas (registrosOrdenados [registro23h, registro00h] 82800) = [0, 23] := by
  decide

/-- C1 (amended).  The table renderer emits hour groups in ascending
numeric hour order — the order of the sorted `groupby` keys — not in
first-encounter order: the emitted key sequence is sorted, it carries
exactly the hours occurring among the windowed records, and the table body
is the concatenation of the per-hour groups in exactly that key order. -/
theorem C1_grupos_ordem_numerica (df : List Registro) (agora : Nat) :
    List.Sorted (· ≤ ·) (horasAgrupadas (registrosOrdenados df agora)) ∧
    (∀ h : Nat, h ∈ horasAgrupadas (registrosOrdenados df agora) ↔
      ∃ r ∈ selecionarJanela df agora, horaDe r.cpt = h) ∧
    linhasTabela df agora = (horasAgrupadas (registrosOrdenados df agora)).flatMap
      (linhasGrupo agora (registrosOrdenados df agora)) := by
  refine ⟨?_, ?_, rfl⟩
  · unfold horasAgrupadas
    exact List.sorted_insertionSort _ _
  · intro h
    unfold horasAgrupadas
    rw [(List.perm_insertionSort _ _).mem_iff, List.mem_dedup, List.mem_map]
    unfold registrosOrdenados ordenar
    constructor
    · rintro ⟨r, hr, rfl⟩
      exact ⟨r, (List.perm_insertionSort ordemLinha _).mem_iff.mp hr, rfl⟩
    · rintro ⟨r, hr, rfl⟩
      exact ⟨r, (List.perm_insertionSort ordemLinha _).mem_iff.mpr hr, rfl⟩

/-! ## C8: urgency marker -/

/-- C8.  The urgency marker of a row is exactly a function of the
whole-minute difference `scheduledTime - now`: the overdue mark iff it is
strictly negative, the imminent mark iff it lies in [0,10], no mark (two
plain spaces) iff it is larger; and the marker plays no part in row
inclusion or order — membership in the rendered sequence is decided by the
2-hour window alone, the rows of each group are the group's records in
order, and the marker is only a per-row prefix. -/
theorem C8_marcador_urgencia (df : List Registro) (agora : Nat) :
    (∀ m : Int, (prefixoEmoji m = "❗️" ↔ m < 0) ∧
      (prefixoEmoji m = "⚠️" ↔ 0 ≤ m ∧ m ≤ 10) ∧
      (prefixoEmoji m = "  " ↔ 10 < m)) ∧
    (∀ r : Registro, r ∈ registrosRenderizados df agora ↔
      r ∈ df ∧ agora ≤ r.cpt ∧ r.cpt < agora + 7200) ∧
    (∀ rows h, (linhasGrupo agora rows h).drop 2 =
      (grupoDaHora rows h).map (linhaRegistro agora)) ∧
    (∀ r : Registro, linhaRegistro agora r =
      prefixoEmoji (minutosAte agora r.cpt) ++ " " ++ dadosFormatados r) := by
  refine ⟨?_, mem_registrosRenderizados df agora, fun rows h => rfl, fun r => rfl⟩
  intro m
  unfold prefixoEmoji
  split_ifs with h1 h2
  · exact ⟨⟨fun _ => h1, fun _ => rfl⟩,
      ⟨fun h => absurd h (by decide), fun h => absurd h1 (by omega)⟩,
      ⟨fun h => absurd h (by decide), fun h => absurd h1 (by omega)⟩⟩
  · exact ⟨⟨fun h => absurd h (by decide), fun h => absurd h h1⟩,
      ⟨fun _ => ⟨by omega, h2⟩, fun _ => rfl⟩,
      ⟨fun h => absurd h (by decide), fun h => absurd h2 (by omega)⟩⟩
  · exact ⟨⟨fun h => absurd h (by decide), fun h => absurd h h1⟩,
      ⟨fun h => absurd h (by decide), fun h => absurd h.2 h2⟩,
      ⟨fun _ => by omega, fun _ => rfl⟩⟩

/-! ## C10: the overdue branch is unreachable -/

/-- C10.  Every record that reaches the row renderer passed the window
filter, so its whole-minute difference from `now` is non-negative, its
computed prefix is never the overdue mark, and its rendered line never
starts with the overdue mark. -/
theorem C10_atraso_inalcancavel (df : List Registro) (agora : Nat)
    (r : Registro) (h : r ∈ registrosRenderizados df agora) :
    0 ≤ minutosAte agora r.cpt ∧
    prefixoEmoji (minutosAte agora r.cpt) ≠ "❗️" ∧
    ¬ ("❗️".data <+: (linhaRegistro agora r).data) := by
  have hw := (mem_registrosRenderizados df agora r).mp h
  have hm : 0 ≤ minutosAte agora r.cpt := by
    unfold minutosAte
    have hsub : (0 : Int) ≤ (r.cpt : Int) - (agora : Int) := by
      have := hw.2.1
      omega
    exact Int.fdiv_nonneg hsub (by norm_num)
  refine ⟨hm, ?_, ?_⟩
  · unfold prefixoEmoji
    split_ifs with h1 h2
    · exfalso; omega
    · decide
    · decide
  · unfold linhaRegistro prefixoEmoji
    split_ifs with h1 h2
    · exfalso; omega
    · intro hpre
      rw [List.prefix_iff_eq_take, String.data_append, String.data_append,
        List.append_assoc, List.take_append_of_le_length (by decide)] at hpre
      exact absurd hpre (by decide)
    · intro hpre
      rw [List.prefix_iff_eq_take, String.data_append, String.data_append,
        List.append_assoc, List.take_append_of_le_length (by decide)] at hpre
      exact absurd hpre (by decide)

/-- A record scheduled 14:01, one minute after a 14:00 `now`. -/
def registroJanela : Registro := ⟨"D", "LT1", "S", 50460⟩

theorem C10_atraso_inalcancavel_witness : 0 ≤ minutosAte 50400 registroJanela.cpt :=
  (C10_atraso_inalcancavel [registroJanela] 50400 registroJanela (by decide)).1

/-! ## C7: column truncation -/

theorem mem_pyStrip {c : Char} {s : String} (h : c ∈ (pyStrip s).data) : c ∈ s.data := by
  have h1 : c ∈ (s.data.dropWhile Char.isWhitespace).reverse.dropWhile Char.isWhitespace :=
    List.mem_reverse.mp h
  have h2 : c ∈ (s.data.dropWhile Char.isWhitespace).reverse :=
    List.Sublist.mem h1 (List.dropWhile_sublist _)
  exact List.Sublist.mem (List.mem_reverse.mp h2) (List.dropWhile_sublist _)

theorem mem_pyTake {c : Char} {s : String} {n : Nat} (h : c ∈ (pyTake s n).data) :
    c ∈ s.data :=
  List.Sublist.mem h (List.take_sublist n s.data)

theorem mem_spaces {c : Char} {n : Nat} (h : c ∈ (spaces n).data) : c = ' ' :=
  (List.mem_replicate.mp h).2

theorem mem_padEsq {c : Char} {s : String} {w : Nat} (h : c ∈ (padEsq s w).data) :
    c ∈ s.data ∨ c = ' ' := by
  unfold padEsq at h
  rw [String.data_append] at h
  rcases List.mem_append.mp h with h | h
  · exact Or.inl h
  · exact Or.inr (mem_spaces h)

theorem mem_padCentro {c : Char} {s : String} {w : Nat} (h : c ∈ (padCentro s w).data) :
    c ∈ s.data ∨ c = ' ' := by
  unfold padCentro at h
  rw [String.data_append, String.data_append] at h
  rcases List.mem_append.mp h with h | h
  · rcases List.mem_append.mp h with h | h
    · exact Or.inr (mem_spaces h)
    · exact Or.inl h
  · exact Or.inr (mem_spaces h)

theorem doisDigitos_digitos : ∀ n : Nat, n < 100 →
    ∀ c ∈ (doisDigitos n).data, c.isDigit = true := by
  decide

theorem mem_cptStr {c : Char} {t : Nat} (h : c ∈ (cptStr t).data) :
    c.isDigit = true ∨ c = ':' := by
  unfold cptStr at h
  rw [String.data_append, String.data_append] at h
  rcases List.mem_append.mp h with h | h
  · rcases List.mem_append.mp h with h | h
    · exact Or.inl (doisDigitos_digitos _ (by unfold horaDe; omega) c h)
    · exact Or.inr (List.mem_singleton.mp h)
  · exact Or.inl (doisDigitos_digitos _ (by unfold minutoDe; omega) c h)

theorem mem_formatar_doca {c : Char} {d : String} (h : c ∈ (formatar_doca d).data) :
    c.isDigit = true ∨ c = '-' := by
  unfold formatar_doca at h
  split_ifs at h with h1 h2
  · exact Or.inr ((by decide : ∀ x ∈ "--".data, x = '-') c h)
  · exact Or.inr ((by decide : ∀ x ∈ "--".data, x = '-') c h)
  · exact Or.inl (List.mem_filter.mp h).2

/-- A record whose trip id takes 20 characters, 6 over the column width. -/
def registroLongo : Registro := ⟨"Doca 7", "ABCDEFGHIJKLMNOPQRST", "X", 50700⟩

/-- C7 as stated is false: the 20-character trip id is sliced to its first
14 characters and the rendered row carries no ellipsis marker of any kind —
the excess is dropped silently. -/
theorem C7_contraexemplo :
    dadosFormatados registroLongo =
      "ABCDEFGHIJKLMN |   7    |  14:05  | X                        " ∧
    '…' ∉ (dadosFormatados registroLongo).data ∧
    ¬ ("...".data <:+: (dadosFormatados registroLongo).data) ∧
    ¬ (registroLongo.lhTripNumber.data <:+: (dadosFormatados registroLongo).data) := by
  decide

/-- C7 (amended).  Overlong fields are truncated silently: the id column of
a rendered row is exactly the first 14 characters of the stripped trip id
(a prefix of the row, never wrapped), and no ellipsis character ever
appears in a row unless the input fields themselves contain one. -/
theorem C7_truncagem_silenciosa (r : Registro)
    (hlt : '…' ∉ r.lhTripNumber.data) (hst : '…' ∉ r.stationName.data) :
    '…' ∉ (dadosFormatados r).data ∧
    (pyTake (pyStrip r.lhTripNumber) 14).data <+: (dadosFormatados r).data := by
  constructor
  · intro hmem
    unfold dadosFormatados at hmem
    simp only [String.data_append, List.mem_append] at hmem
    rcases hmem with ((((((h | h) | h) | h) | h) | h) | h)
    · rcases mem_padEsq h with h | h
      · exact hlt (mem_pyStrip (mem_pyTake h))
      · exact absurd h (by decide)
    · exact (by decide : '…' ∉ " | ".data) h
    · rcases mem_padCentro h with h | h
      · rcases mem_formatar_doca (mem_pyTake h) with hd | hd
        · exact absurd hd (by decide)
        · exact absurd hd (by decide)
      · exact absurd h (by decide)
    · exact (by decide : '…' ∉ " | ".data) h
    · rcases mem_padCentro h with h | h
      · rcases mem_cptStr h with hd | hd
        · exact absurd hd (by decide)
        · exact absurd hd (by decide)
      · exact absurd h (by decide)
    · exact (by decide : '…' ∉ " | ".data) h
    · rcases mem_padEsq h with h | h
      · exact hst (mem_pyStrip (mem_pyTake h))
      · exact absurd h (by decide)
  · unfold dadosFormatados padEsq
    simp only [String.data_append, List.append_assoc]
    exact List.prefix_append _ _

/-- A record with short fields and no ellipsis character anywhere. -/
def registroCurto : Registro := ⟨"4", "LT9", "POA1", 3600⟩

theorem C7_truncagem_silenciosa_witness :
    '…' ∉ (dadosFormatados registroCurto).data :=
  (C7_truncagem_silenciosa registroCurto (by decide) (by decide)).1

/-! ## C9: the per-shift summary -/

/-- C9.  The footer emits exactly one line for each of the two non-current
shifts, in the cyclic order after the current shift; the counts are taken
over the entire input frame (not the windowed subset); a count of 1 gets
the singular wording, any other count — zero included, with its own
explicit line — the plural wording. -/
theorem C9_resumo_turnos (df : List Registro) (turnoAtual : String)
    (h : turnoAtual ∈ ["Turno 1", "Turno 2", "Turno 3"]) :
    (linhasResumo df turnoAtual).length = 2 ∧
    linhasResumo df turnoAtual = (prioridades_turno turnoAtual).map (linhaResumo df) ∧
    (∀ t ∈ prioridades_turno turnoAtual, t ≠ turnoAtual ∧
      t ∈ ["Turno 1", "Turno 2", "Turno 3"]) ∧
    prioridades_turno "Turno 1" = ["Turno 2", "Turno 3"] ∧
    prioridades_turno "Turno 2" = ["Turno 3", "Turno 1"] ∧
    prioridades_turno "Turno 3" = ["Turno 1", "Turno 2"] ∧
    (∀ t : String, contarTurno df t =
      (df.filter fun r => decide (identificar_turno (horaDe r.cpt : Int) = t)).length) ∧
    (∀ t : String,
      (contarTurno df t = 1 → linhaResumo df t = "⚠️ 1 LH pendente no " ++ t) ∧
      (contarTurno df t = 0 → linhaResumo df t = "✅ 0 LHs pendentes no " ++ t) ∧
      (2 ≤ contarTurno df t →
        linhaResumo df t =
          "⚠️ " ++ toString (contarTurno df t) ++ " LHs pendentes no " ++ t)) := by
  have p1 : prioridades_turno "Turno 1" = ["Turno 2", "Turno 3"] := by decide
  have p2 : prioridades_turno "Turno 2" = ["Turno 3", "Turno 1"] := by decide
  have p3 : prioridades_turno "Turno 3" = ["Turno 1", "Turno 2"] := by decide
  have h' : turnoAtual = "Turno 1" ∨ turnoAtual = "Turno 2" ∨ turnoAtual = "Turno 3" := by
    simpa using h
  refine ⟨?_, rfl, ?_, p1, p2, p3, fun t => rfl, ?_⟩
  · rcases h' with rfl | rfl | rfl <;>
      simp [linhasResumo, p1, p2, p3]
  · rcases h' with rfl | rfl | rfl <;> decide
  · intro t
    refine ⟨?_, ?_, ?_⟩
    · intro h1
      unfold linhaResumo
      rw [h1]
      norm_num
      apply String.ext
      simp only [String.data_append, List.append_assoc]
      rfl
    · intro h0
      unfold linhaResumo
      rw [h0]
      norm_num
    · intro h2
      unfold linhaResumo
      rw [if_pos (by omega : contarTurno df t > 0),
        if_pos (by omega : contarTurno df t ≠ 1)]
      apply String.ext
      simp only [String.data_append, List.append_assoc]
      rfl

theorem C9_resumo_turnos_witness : (linhasResumo [] "Turno 1").length = 2 :=
  (C9_resumo_turnos [] "Turno 1" (by decide)).1
